import Mathlib

/-!
Verification of the MPU6050 data-analysis script (ArquivosDados/PlotaDados.py).

The script is a single straight-line pipeline wrapped in a try/except:
load a CSV into a table, derive a time axis and an acceleration magnitude,
plot, print statistics, and save a figure; three handlers catch
FileNotFoundError, KeyError and a generic Exception, and a usage block is
printed unconditionally afterwards.

Embedding choices:
* Numeric column values are modelled as rationals (the float arithmetic of
  the script is idealised as exact arithmetic); the square root used for the
  acceleration magnitude is modelled over the reals with Real.sqrt.
* A loaded DataFrame is a list of named columns plus its row count
  (pandas guarantees the columns of a parsed CSV share one length; that
  invariant is carried as the Table.Uniform hypothesis where a claim needs
  it, so len data is the common column length there).
* Console output is a list of Line values.  Lines that print computed
  numbers carry the exact computed value (decimal formatting such as :.1f
  and the textual parts of f-strings are not modelled); fixed prints are
  nullary constructors, one per print statement of the script.
* The sampleRate line keeps the two operands of the printed division
  (len data and time.iloc[-1]) so that Python float division, including
  its division-by-zero-gives-infinity behaviour, need not be modelled;
  whenever the divisor is nonzero the printed value is their exact quotient.
* Exceptions are the PyError type; the try block is a function returning
  the lines printed before the failure point together with an optional
  error, and the whole program is a total function, which models the fact
  that no exception escapes the top-level handlers.
-/

namespace PlotaDados

/-- A loaded tabular dataset: pandas DataFrame as produced by
read_csv, modelled as its row count (the value of len applied to the
DataFrame) and its named columns. -/
structure Table where
  len : ℕ
  cols : List (String × List ℚ)

/-- Column access, the lookup underlying the subscript data[name]:
the first column carrying the requested name, if any. -/
def Table.col? (t : Table) (name : String) : Option (List ℚ) :=
  (t.cols.find? (fun p => p.fst == name)).map Prod.snd

/-- The pandas invariant on a parsed CSV: every column has the row count as
its length. -/
def Table.Uniform (t : Table) : Prop :=
  ∀ p ∈ t.cols, p.snd.length = t.len

/-- The exceptions the script can raise inside the try block:
FileNotFoundError from read_csv, KeyError (carrying the column name) from a
column subscript, and IndexError from iloc on an empty series (caught by
the generic except Exception handler). -/
inductive PyError where
  | fileNotFound : PyError
  | keyError : String → PyError
  | indexError : PyError
deriving DecidableEq

/-- One line of console output.  Value-carrying constructors hold the exact
numbers interpolated into the corresponding f-string; nullary constructors
stand for prints of fixed text (error remediation lines and the usage
block). -/
inductive Line where
  /-- Data loaded: n samples -/
  | dataLoaded : ℕ → Line
  /-- Duration: d seconds -/
  | duration : ℚ → Line
  /-- Sample rate print: the quotient n / d is interpolated, where n is
  len data and d is time.iloc[-1]. -/
  | sampleRate : ℕ → ℚ → Line
  /-- Per-axis statistics line: column label, min, max, mean. -/
  | stat : String → ℚ → ℚ → ℚ → Line
  /-- Plot saved as: mpu6050_analysis.png -/
  | plotSaved : Line
  /-- ERROR: File mpu_data.csv not found! -/
  | errFileNotFound : Line
  /-- Remediation line 1 of the FileNotFoundError handler. -/
  | errFileRemediation1 : Line
  /-- Remediation line 2 of the FileNotFoundError handler. -/
  | errFileRemediation2 : Line
  /-- Remediation line 3 of the FileNotFoundError handler. -/
  | errFileRemediation3 : Line
  /-- ERROR: Column not found, carrying the missing column name. -/
  | errMissingColumn : String → Line
  /-- Check if CSV has correct header: -/
  | errColRemediation1 : Line
  /-- The expected header line printed by the KeyError handler. -/
  | errColRemediation2 : Line
  /-- ERROR: e, printed by the generic handler. -/
  | errGeneric : Line
  /-- USAGE INSTRUCTIONS: -/
  | usageHeader : Line
  /-- Usage step 1. -/
  | usageStep1 : Line
  /-- Usage step 2. -/
  | usageStep2 : Line
  /-- Usage step 3. -/
  | usageStep3 : Line
  /-- Usage step 4. -/
  | usageStep4 : Line
deriving DecidableEq

/-- pandas Series.min over a column (only ever printed on nonempty data;
the empty case is arbitrary). -/
def colMin : List ℚ → ℚ
  | [] => 0
  | x :: xs => xs.foldl min x

/-- pandas Series.max over a column (only ever printed on nonempty data;
the empty case is arbitrary). -/
def colMax : List ℚ → ℚ
  | [] => 0
  | x :: xs => xs.foldl max x

/-- pandas Series.sum over a column. -/
def colSum (l : List ℚ) : ℚ :=
  l.foldl (fun a b => a + b) 0

/-- pandas Series.mean over a column: sum divided by count. -/
def colMean (l : List ℚ) : ℚ :=
  colSum l / l.length

/-- One statistics print of the reporter: min, max and mean of the named
column, as in data[name].min() / .max() / .mean() at lines 66-77. -/
def statLine (name : String) (l : List ℚ) : Line :=
  Line.stat name (colMin l) (colMax l) (colMean l)

/-- Line 14: time = data[Sample] * 0.1, the elementwise product of the
Sample column with the 0.1 s sample period. -/
def timeSeries (sample : List ℚ) : List ℚ :=
  sample.map (fun s => s * (1 / 10))

/-- A column subscript data[name]: the column when present, KeyError
carrying the name otherwise. -/
def getCol (t : Table) (name : String) : Except PyError (List ℚ) :=
  match t.col? name with
  | some l => Except.ok l
  | none => Except.error (PyError.keyError name)

/-- Series.iloc applied to -1: the last element, IndexError when the series
is empty. -/
def ilocLast (l : List ℚ) : Except PyError ℚ :=
  match l.getLast? with
  | some v => Except.ok v
  | none => Except.error PyError.indexError

/-- The body of the try block after the CSV has been read and the
Data loaded line printed: every subsequent print, or the error that
interrupts them.  Columns are subscripted in the order the script first
reads them (line 14 for Sample, lines 21-23, 31-33 and 41-42 for the
plots); the re-reads at line 50 and in the statistics prints repeat
subscripts that already succeeded, so they cannot fail and are not
repeated here.  The plotting calls themselves raise nothing and print
nothing.  time.iloc[-1] at line 62 is the first and only fallible
operation after the plots; its re-evaluation at line 63 has already
succeeded.  All remaining prints and savefig then run unconditionally. -/
def tryBody (data : Table) : Except PyError (List Line) :=
  match getCol data "Sample" with
  | Except.error e => Except.error e
  | Except.ok sample =>
  match getCol data "AccelX" with
  | Except.error e => Except.error e
  | Except.ok accelX =>
  match getCol data "AccelY" with
  | Except.error e => Except.error e
  | Except.ok accelY =>
  match getCol data "AccelZ" with
  | Except.error e => Except.error e
  | Except.ok accelZ =>
  match getCol data "GyroX" with
  | Except.error e => Except.error e
  | Except.ok gyroX =>
  match getCol data "GyroY" with
  | Except.error e => Except.error e
  | Except.ok gyroY =>
  match getCol data "GyroZ" with
  | Except.error e => Except.error e
  | Except.ok gyroZ =>
  match getCol data "Roll" with
  | Except.error e => Except.error e
  | Except.ok roll =>
  match getCol data "Pitch" with
  | Except.error e => Except.error e
  | Except.ok pitch =>
  match ilocLast (timeSeries sample) with
  | Except.error e => Except.error e
  | Except.ok dur =>
  Except.ok [Line.duration dur, Line.sampleRate data.len dur,
    statLine "AccelX" accelX, statLine "AccelY" accelY, statLine "AccelZ" accelZ,
    statLine "GyroX" gyroX, statLine "GyroY" gyroY, statLine "GyroZ" gyroZ,
    statLine "Roll" roll, statLine "Pitch" pitch,
    Line.plotSaved]

/-- The whole try block: reads the file (none models a missing
mpu_data.csv, raising FileNotFoundError before anything is printed),
prints the Data loaded line, and runs the body.  Returns every line
printed inside the try together with the raised error, if any. -/
def tryBlock : Option Table → List Line × Option PyError
  | none => ([], some PyError.fileNotFound)
  | some data =>
    match tryBody data with
    | Except.ok lines => (Line.dataLoaded data.len :: lines, none)
    | Except.error e => ([Line.dataLoaded data.len], some e)

/-- The three except handlers at lines 86-99, in order: FileNotFoundError,
KeyError (printing the missing column name), and the generic Exception
fallback. -/
def handlerLines : PyError → List Line
  | PyError.fileNotFound =>
      [Line.errFileNotFound, Line.errFileRemediation1,
       Line.errFileRemediation2, Line.errFileRemediation3]
  | PyError.keyError c =>
      [Line.errMissingColumn c, Line.errColRemediation1, Line.errColRemediation2]
  | PyError.indexError => [Line.errGeneric]

/-- The USAGE INSTRUCTIONS block printed unconditionally at lines 101-105. -/
def usageLines : List Line :=
  [Line.usageHeader, Line.usageStep1, Line.usageStep2, Line.usageStep3,
   Line.usageStep4]

/-- The whole program run on an input file (none for a missing file):
all console output in order, and whether the figure file
mpu6050_analysis.png was written.  savefig at line 83 is the last
statement of the try block, so the image is written exactly when the body
runs to completion. -/
def program (fs : Option Table) : List Line × Bool :=
  match tryBlock fs with
  | (out, none) => (out ++ usageLines, true)
  | (out, some e) => (out ++ handlerLines e ++ usageLines, false)

/-- The value interpolated into the duration print, when the run reaches
it: the first (and only) duration line of the output of the try block. -/
def reportedDuration (t : Table) : Option ℚ :=
  ((tryBlock (some t)).fst.filterMap fun l =>
    match l with
    | Line.duration d => some d
    | _ => none).head?

/-- The operands of the sample-rate print, when the run reaches it:
numerator len data and divisor time.iloc[-1] of the printed quotient. -/
def reportedRateOperands (t : Table) : Option (ℕ × ℚ) :=
  ((tryBlock (some t)).fst.filterMap fun l =>
    match l with
    | Line.sampleRate n d => some (n, d)
    | _ => none).head?

/-- Elementwise map over three equal-length series, as numpy broadcasts
the expression at line 50 over the three columns. -/
def zipWith3 {α β γ δ : Type} (f : α → β → γ → δ) :
    List α → List β → List γ → List δ
  | a :: as, b :: bs, c :: cs => f a b c :: zipWith3 f as bs cs
  | _, _, _ => []

/-- Line 50: accel_magnitude = np.sqrt(AccelX**2 + AccelY**2 + AccelZ**2),
elementwise over the three acceleration columns, idealised over the
reals. -/
noncomputable def accel_magnitude (ax ay az : List ℝ) : List ℝ :=
  zipWith3 (fun x y z => Real.sqrt (x ^ 2 + y ^ 2 + z ^ 2)) ax ay az

/-- The expected CSV header, as printed by the KeyError handler at line 96:
the columns the script subscripts. -/
def expectedCols : List String :=
  ["Sample", "AccelX", "AccelY", "AccelZ", "GyroX", "GyroY", "GyroZ",
   "Roll", "Pitch"]

/-- Specification-side notion for the reporter claims: mn, mx and avg are
the direct aggregates of the column l, namely its least element, its
greatest element, and its arithmetic mean (sum over count). -/
def DirectAggregation (mn mx avg : ℚ) (l : List ℚ) : Prop :=
  mn ∈ l ∧ (∀ x ∈ l, mn ≤ x) ∧
  mx ∈ l ∧ (∀ x ∈ l, x ≤ mx) ∧
  avg = l.sum / l.length

/-- The fixed 3-row dataset of the spec: Sample = 0,1,2; AccelZ = 1,1,1;
every other column zero. -/
def sampleTable : Table :=
  ⟨3, [("Sample", [0, 1, 2]), ("AccelX", [0, 0, 0]), ("AccelY", [0, 0, 0]),
       ("AccelZ", [1, 1, 1]), ("GyroX", [0, 0, 0]), ("GyroY", [0, 0, 0]),
       ("GyroZ", [0, 0, 0]), ("Roll", [0, 0, 0]), ("Pitch", [0, 0, 0])]⟩

/-- A dataset with a correct header but zero data rows, as read_csv
produces from a header-only file. -/
def emptyTable : Table :=
  ⟨0, [("Sample", []), ("AccelX", []), ("AccelY", []), ("AccelZ", []),
       ("GyroX", []), ("GyroY", []), ("GyroZ", []), ("Roll", []),
       ("Pitch", [])]⟩

/-- A one-row dataset whose AccelZ column is absent. -/
def missingColTable : Table :=
  ⟨1, [("Sample", [0]), ("AccelX", [0]), ("AccelY", [0]),
       ("GyroX", [0]), ("GyroY", [0]), ("GyroZ", [0]), ("Roll", [0]),
       ("Pitch", [0])]⟩

section Lemmas

/-- The running minimum of a fold over min is an element of the list
headed by the accumulator. -/
theorem foldl_min_mem (x : ℚ) (xs : List ℚ) : xs.foldl min x ∈ x :: xs := by
  induction xs generalizing x with
  | nil => simp
  | cons y ys ih =>
    have h := ih (min x y)
    rcases List.mem_cons.mp h with h1 | h1
    · rcases min_choice x y with hc | hc
      · rw [List.foldl_cons, h1, hc]; exact List.mem_cons_self x (y :: ys)
      · rw [List.foldl_cons, h1, hc]
        exact List.mem_cons_of_mem x (List.mem_cons_self y ys)
    · rw [List.foldl_cons]
      exact List.mem_cons_of_mem x (List.mem_cons_of_mem y h1)

/-- The running minimum of a fold over min bounds every element of the
list headed by the accumulator from below. -/
theorem foldl_min_le (x : ℚ) (xs : List ℚ) :
    ∀ a ∈ x :: xs, xs.foldl min x ≤ a := by
  induction xs generalizing x with
  | nil => intro a ha; rw [List.mem_singleton.mp ha]; exact le_refl x
  | cons y ys ih =>
    intro a ha
    rw [List.foldl_cons]
    have hmin : ys.foldl min (min x y) ≤ min x y :=
      ih (min x y) (min x y) (List.mem_cons_self _ _)
    rcases List.mem_cons.mp ha with rfl | ha'
    · exact le_trans hmin (min_le_left _ _)
    · rcases List.mem_cons.mp ha' with rfl | ha''
      · exact le_trans hmin (min_le_right _ _)
      · exact ih (min x y) a (List.mem_cons_of_mem _ ha'')

/-- The running maximum of a fold over max is an element of the list
headed by the accumulator. -/
theorem foldl_max_mem (x : ℚ) (xs : List ℚ) : xs.foldl max x ∈ x :: xs := by
  induction xs generalizing x with
  | nil => simp
  | cons y ys ih =>
    have h := ih (max x y)
    rcases List.mem_cons.mp h with h1 | h1
    · rcases max_choice x y with hc | hc
      · rw [List.foldl_cons, h1, hc]; exact List.mem_cons_self x (y :: ys)
      · rw [List.foldl_cons, h1, hc]
        exact List.mem_cons_of_mem x (List.mem_cons_self y ys)
    · rw [List.foldl_cons]
      exact List.mem_cons_of_mem x (List.mem_cons_of_mem y h1)

/-- The running maximum of a fold over max bounds every element of the
list headed by the accumulator from above. -/
theorem le_foldl_max (x : ℚ) (xs : List ℚ) :
    ∀ a ∈ x :: xs, a ≤ xs.foldl max x := by
  induction xs generalizing x with
  | nil => intro a ha; rw [List.mem_singleton.mp ha]; exact le_refl x
  | cons y ys ih =>
    intro a ha
    rw [List.foldl_cons]
    have hmax : max x y ≤ ys.foldl max (max x y) :=
      ih (max x y) (max x y) (List.mem_cons_self _ _)
    rcases List.mem_cons.mp ha with rfl | ha'
    · exact le_trans (le_max_left _ _) hmax
    · rcases List.mem_cons.mp ha' with rfl | ha''
      · exact le_trans (le_max_right _ _) hmax
      · exact ih (max x y) a (List.mem_cons_of_mem _ ha'')

/-- The reporter's column sum agrees with the mathematical list sum. -/
theorem colSum_eq_sum (l : List ℚ) : colSum l = l.sum := by
  have h : ∀ (a : ℚ) (m : List ℚ), m.foldl (fun u v => u + v) a = a + m.sum := by
    intro a m
    induction m generalizing a with
    | nil => simp
    | cons y ys ih => rw [List.foldl_cons, ih, List.sum_cons]; ring
  rw [colSum, h, zero_add]

/-- On a nonempty column, the reporter's min, max and mean are exactly the
direct aggregates the spec describes. -/
theorem directAggregation_of_ne_nil (l : List ℚ) (h : l ≠ []) :
    DirectAggregation (colMin l) (colMax l) (colMean l) l := by
  match l, h with
  | x :: xs, _ =>
    refine ⟨foldl_min_mem x xs, foldl_min_le x xs, foldl_max_mem x xs,
      le_foldl_max x xs, ?_⟩
    rw [colMean, colSum_eq_sum]

/-- The length of a threefold elementwise map is the minimum of the three
input lengths. -/
theorem zipWith3_length {α β γ δ : Type} (f : α → β → γ → δ) :
    ∀ (as : List α) (bs : List β) (cs : List γ),
      (zipWith3 f as bs cs).length = min (min as.length bs.length) cs.length
  | [], _, _ => by simp [zipWith3]
  | _ :: _, [], _ => by simp [zipWith3]
  | _ :: _, _ :: _, [] => by simp [zipWith3]
  | a :: as, b :: bs, c :: cs => by
    simp only [zipWith3, List.length_cons, zipWith3_length f as bs cs]
    omega

/-- Entry i of a threefold elementwise map is f applied to the entries i
of the inputs. -/
theorem zipWith3_get {α β γ δ : Type} (f : α → β → γ → δ)
    (as : List α) (bs : List β) (cs : List γ) (i : ℕ)
    (ha : i < as.length) (hb : i < bs.length) (hc : i < cs.length)
    (h : i < (zipWith3 f as bs cs).length) :
    (zipWith3 f as bs cs).get ⟨i, h⟩ =
      f (as.get ⟨i, ha⟩) (bs.get ⟨i, hb⟩) (cs.get ⟨i, hc⟩) := by
  induction as generalizing bs cs i with
  | nil => exact absurd ha (by simp)
  | cons a as ih =>
    cases bs with
    | nil => exact absurd hb (by simp)
    | cons b bs =>
      cases cs with
      | nil => exact absurd hc (by simp)
      | cons c cs =>
        cases i with
        | zero => rfl
        | succ j =>
          have h' : j < (zipWith3 f as bs cs).length := by
            have := h
            simp only [zipWith3, List.length_cons] at this
            omega
          exact ih bs cs j (Nat.lt_of_succ_lt_succ ha)
            (Nat.lt_of_succ_lt_succ hb) (Nat.lt_of_succ_lt_succ hc) h'

end Lemmas

/-- C1: for every well-formed input dataset, the derived time series of
line 14 equals Sample * 0.1 elementwise: time[i] = Sample[i] * 0.1. -/
theorem time_eq_sample_mul_tenth (t : Table) (sample : List ℚ)
    (_hs : t.col? "Sample" = some sample) (i : ℕ)
    (h : i < sample.length) (ht : i < (timeSeries sample).length) :
    (timeSeries sample).get ⟨i, ht⟩ = sample.get ⟨i, h⟩ * (1 / 10) := by
  simp [timeSeries]

/-- Witness for C1 on the fixed three-row dataset: time[1] = 1 * 0.1. -/
theorem time_eq_sample_mul_tenth_witness :
    (timeSeries [0, 1, 2]).get ⟨1, by decide⟩ = (([0, 1, 2] : List ℚ).get ⟨1, by decide⟩) * (1 / 10) :=
  time_eq_sample_mul_tenth sampleTable [0, 1, 2] rfl 1 (by decide) (by decide)

/-- C2: the derived acceleration magnitude of line 50 equals the Euclidean
norm of (AccelX, AccelY, AccelZ) elementwise, and every entry is
nonnegative. -/
theorem accel_magnitude_spec (ax ay az : List ℝ) (i : ℕ)
    (hx : i < ax.length) (hy : i < ay.length) (hz : i < az.length)
    (h : i < (accel_magnitude ax ay az).length) :
    (accel_magnitude ax ay az).get ⟨i, h⟩ =
      Real.sqrt (ax.get ⟨i, hx⟩ ^ 2 + ay.get ⟨i, hy⟩ ^ 2 + az.get ⟨i, hz⟩ ^ 2) ∧
    0 ≤ (accel_magnitude ax ay az).get ⟨i, h⟩ := by
  have hg : (accel_magnitude ax ay az).get ⟨i, h⟩ =
      Real.sqrt (ax.get ⟨i, hx⟩ ^ 2 + ay.get ⟨i, hy⟩ ^ 2 + az.get ⟨i, hz⟩ ^ 2) :=
    zipWith3_get (fun x y z => Real.sqrt (x ^ 2 + y ^ 2 + z ^ 2)) ax ay az i hx hy hz h
  exact ⟨hg, by rw [hg]; exact Real.sqrt_nonneg _⟩

/-- Witness for C2 at entry 0 of the columns X = [0], Y = [0], Z = [1]. -/
theorem accel_magnitude_spec_witness :
    (accel_magnitude [0] [0] [1]).get ⟨0, by decide⟩ =
      Real.sqrt ((([0] : List ℝ).get ⟨0, by decide⟩) ^ 2 +
        (([0] : List ℝ).get ⟨0, by decide⟩) ^ 2 +
        (([1] : List ℝ).get ⟨0, by decide⟩) ^ 2) ∧
    0 ≤ (accel_magnitude [0] [0] [1]).get ⟨0, by decide⟩ :=
  accel_magnitude_spec [0] [0] [1] 0 (by decide) (by decide) (by decide) (by decide)

/-- C7: when mpu_data.csv does not exist, the run prints the
file-not-found message followed by the three remediation lines of the
FileNotFoundError handler, then the usage block; no exception escapes and
no figure is written. -/
theorem missing_file_handled :
    program none =
      ([Line.errFileNotFound, Line.errFileRemediation1,
        Line.errFileRemediation2, Line.errFileRemediation3] ++ usageLines,
       false) := rfl

/-- C8: on every error path the figure mpu6050_analysis.png is not
written: whenever the try block raises, the saved flag of the run is
false. -/
theorem no_image_on_error (fs : Option Table) (e : PyError)
    (h : (tryBlock fs).snd = some e) : (program fs).snd = false := by
  rw [program]
  rcases htb : tryBlock fs with ⟨out, err⟩
  rw [htb] at h
  simp only at h
  rw [h]

/-- Witness for C8 on the missing-file path. -/
theorem no_image_on_error_witness : (program none).snd = false :=
  no_image_on_error none PyError.fileNotFound rfl

/-- C10: on every execution, error or not, the final console output is
the usage block: the five usage lines are a suffix of the whole output. -/
theorem usage_block_always_last (fs : Option Table) :
    usageLines <:+ (program fs).fst := by
  rcases htb : tryBlock fs with ⟨out, err⟩
  cases err with
  | none =>
    rw [program, htb]
    show usageLines <:+ out ++ usageLines
    exact List.suffix_append out usageLines
  | some e =>
    rw [program, htb]
    show usageLines <:+ out ++ handlerLines e ++ usageLines
    exact List.suffix_append (out ++ handlerLines e) usageLines

/-- C4: on the fixed 3-row dataset (Sample = [0,1,2], AccelX = AccelY =
[0,0,0], AccelZ = [1,1,1], every other expected column present), the
magnitude series is [1,1,1] and the duration printed at line 62 is
0.2 seconds. -/
theorem fixed_dataset_magnitude_and_duration :
    accel_magnitude [0, 0, 0] [0, 0, 0] [1, 1, 1] = [1, 1, 1] ∧
    reportedDuration sampleTable = some (0.2 : ℚ) := by
  constructor
  · show [Real.sqrt ((0 : ℝ) ^ 2 + (0 : ℝ) ^ 2 + (1 : ℝ) ^ 2),
      Real.sqrt ((0 : ℝ) ^ 2 + (0 : ℝ) ^ 2 + (1 : ℝ) ^ 2),
      Real.sqrt ((0 : ℝ) ^ 2 + (0 : ℝ) ^ 2 + (1 : ℝ) ^ 2)] = [1, 1, 1]
    norm_num [Real.sqrt_one]
  · simp [reportedDuration, tryBlock, tryBody, getCol, Table.col?,
      sampleTable, ilocLast, timeSeries, statLine]
    norm_num

/-- C9: a dataset with the correct header but zero data rows loads, but
time.iloc[-1] at line 62 raises IndexError, caught by the generic
except Exception handler: no statistics are printed, a generic ERROR line
is, no image is saved, and no exception escapes. -/
theorem empty_rows_generic_error (t : Table)
    (hs : t.col? "Sample" = some [])
    (hax : t.col? "AccelX" = some []) (hay : t.col? "AccelY" = some [])
    (haz : t.col? "AccelZ" = some []) (hgx : t.col? "GyroX" = some [])
    (hgy : t.col? "GyroY" = some []) (hgz : t.col? "GyroZ" = some [])
    (hr : t.col? "Roll" = some []) (hp : t.col? "Pitch" = some []) :
    tryBlock (some t) = ([Line.dataLoaded t.len], some PyError.indexError) ∧
    program (some t) =
      ([Line.dataLoaded t.len, Line.errGeneric] ++ usageLines, false) := by
  have hbody : tryBody t = Except.error PyError.indexError := by
    simp [tryBody, getCol, hs, hax, hay, haz, hgx, hgy, hgz, hr, hp,
      ilocLast, timeSeries]
  have hblock : tryBlock (some t) =
      ([Line.dataLoaded t.len], some PyError.indexError) := by
    simp [tryBlock, hbody]
  exact ⟨hblock, by simp [program, hblock, handlerLines, usageLines]⟩

/-- Witness for C9 on the concrete header-only dataset. -/
theorem empty_rows_generic_error_witness :
    tryBlock (some emptyTable) =
      ([Line.dataLoaded emptyTable.len], some PyError.indexError) ∧
    program (some emptyTable) =
      ([Line.dataLoaded emptyTable.len, Line.errGeneric] ++ usageLines,
       false) :=
  empty_rows_generic_error emptyTable rfl rfl rfl rfl rfl rfl rfl rfl rfl

/-- C6: when the file loads but at least one expected column is absent,
the run ends in the KeyError handler: it prints the missing-column error
naming an absent expected column (the first one the script subscripts),
plus the header remediation lines, and no exception escapes. -/
theorem missing_column_handled (t : Table)
    (hmiss : ∃ c ∈ expectedCols, t.col? c = none) :
    ∃ c ∈ expectedCols, t.col? c = none ∧
      program (some t) =
        ([Line.dataLoaded t.len, Line.errMissingColumn c,
          Line.errColRemediation1, Line.errColRemediation2] ++ usageLines,
         false) := by
  have hprog : ∀ c : String, tryBody t = Except.error (PyError.keyError c) →
      program (some t) =
        ([Line.dataLoaded t.len, Line.errMissingColumn c,
          Line.errColRemediation1, Line.errColRemediation2] ++ usageLines,
         false) := by
    intro c hc
    simp [program, tryBlock, hc, handlerLines, usageLines]
  cases hS : t.col? "Sample" with
  | none =>
    exact ⟨"Sample", by simp [expectedCols], hS,
      hprog _ (by simp [tryBody, getCol, hS])⟩
  | some sample =>
  cases hAX : t.col? "AccelX" with
  | none =>
    exact ⟨"AccelX", by simp [expectedCols], hAX,
      hprog _ (by simp [tryBody, getCol, hS, hAX])⟩
  | some lax =>
  cases hAY : t.col? "AccelY" with
  | none =>
    exact ⟨"AccelY", by simp [expectedCols], hAY,
      hprog _ (by simp [tryBody, getCol, hS, hAX, hAY])⟩
  | some lay =>
  cases hAZ : t.col? "AccelZ" with
  | none =>
    exact ⟨"AccelZ", by simp [expectedCols], hAZ,
      hprog _ (by simp [tryBody, getCol, hS, hAX, hAY, hAZ])⟩
  | some laz =>
  cases hGX : t.col? "GyroX" with
  | none =>
    exact ⟨"GyroX", by simp [expectedCols], hGX,
      hprog _ (by simp [tryBody, getCol, hS, hAX, hAY, hAZ, hGX])⟩
  | some lgx =>
  cases hGY : t.col? "GyroY" with
  | none =>
    exact ⟨"GyroY", by simp [expectedCols], hGY,
      hprog _ (by simp [tryBody, getCol, hS, hAX, hAY, hAZ, hGX, hGY])⟩
  | some lgy =>
  cases hGZ : t.col? "GyroZ" with
  | none =>
    exact ⟨"GyroZ", by simp [expectedCols], hGZ,
      hprog _ (by simp [tryBody, getCol, hS, hAX, hAY, hAZ, hGX, hGY, hGZ])⟩
  | some lgz =>
  cases hR : t.col? "Roll" with
  | none =>
    exact ⟨"Roll", by simp [expectedCols], hR,
      hprog _ (by simp [tryBody, getCol, hS, hAX, hAY, hAZ, hGX, hGY, hGZ, hR])⟩
  | some lroll =>
  cases hP : t.col? "Pitch" with
  | none =>
    exact ⟨"Pitch", by simp [expectedCols], hP,
      hprog _ (by simp [tryBody, getCol, hS, hAX, hAY, hAZ, hGX, hGY, hGZ, hR, hP])⟩
  | some lpitch =>
    exfalso
    rcases hmiss with ⟨c, hc, hnone⟩
    simp only [expectedCols, List.mem_cons, List.not_mem_nil, or_false] at hc
    rcases hc with rfl | rfl | rfl | rfl | rfl | rfl | rfl | rfl | rfl <;>
      simp_all

/-- Witness for C6 on the concrete dataset whose AccelZ column is
absent. -/
theorem missing_column_handled_witness :
    ∃ c ∈ expectedCols, missingColTable.col? c = none ∧
      program (some missingColTable) =
        ([Line.dataLoaded missingColTable.len, Line.errMissingColumn c,
          Line.errColRemediation1, Line.errColRemediation2] ++ usageLines,
         false) :=
  missing_column_handled missingColTable ⟨"AccelZ", by decide, by decide⟩

/-- C5: on a well-formed nonempty dataset, the run succeeds, the reporter
prints exactly the min, max and mean the script computes over each loaded
column, and those values are the direct aggregates of the column: its
least element, its greatest element, and its arithmetic mean. -/
theorem reported_stats_are_direct_aggregates (t : Table)
    (sample lax lay laz lgx lgy lgz lroll lpitch : List ℚ)
    (hs : t.col? "Sample" = some sample) (hsne : sample ≠ [])
    (hax : t.col? "AccelX" = some lax) (haxne : lax ≠ [])
    (hay : t.col? "AccelY" = some lay) (hayne : lay ≠ [])
    (haz : t.col? "AccelZ" = some laz) (hazne : laz ≠ [])
    (hgx : t.col? "GyroX" = some lgx) (hgxne : lgx ≠ [])
    (hgy : t.col? "GyroY" = some lgy) (hgyne : lgy ≠ [])
    (hgz : t.col? "GyroZ" = some lgz) (hgzne : lgz ≠ [])
    (hr : t.col? "Roll" = some lroll) (hrne : lroll ≠ [])
    (hp : t.col? "Pitch" = some lpitch) (hpne : lpitch ≠ []) :
    (∃ d, tryBlock (some t) =
      ([Line.dataLoaded t.len, Line.duration d, Line.sampleRate t.len d,
        statLine "AccelX" lax, statLine "AccelY" lay, statLine "AccelZ" laz,
        statLine "GyroX" lgx, statLine "GyroY" lgy, statLine "GyroZ" lgz,
        statLine "Roll" lroll, statLine "Pitch" lpitch, Line.plotSaved],
       none)) ∧
    DirectAggregation (colMin lax) (colMax lax) (colMean lax) lax ∧
    DirectAggregation (colMin lay) (colMax lay) (colMean lay) lay ∧
    DirectAggregation (colMin laz) (colMax laz) (colMean laz) laz ∧
    DirectAggregation (colMin lgx) (colMax lgx) (colMean lgx) lgx ∧
    DirectAggregation (colMin lgy) (colMax lgy) (colMean lgy) lgy ∧
    DirectAggregation (colMin lgz) (colMax lgz) (colMean lgz) lgz ∧
    DirectAggregation (colMin lroll) (colMax lroll) (colMean lroll) lroll ∧
    DirectAggregation (colMin lpitch) (colMax lpitch) (colMean lpitch) lpitch := by
  have htne : timeSeries sample ≠ [] := by
    simp [timeSeries, hsne]
  obtain ⟨d, hd⟩ : ∃ d, (timeSeries sample).getLast? = some d := by
    cases hcase : (timeSeries sample).getLast? with
    | none => exact absurd (List.getLast?_eq_none_iff.mp hcase) htne
    | some v => exact ⟨v, rfl⟩
  refine ⟨⟨d, ?_⟩, directAggregation_of_ne_nil lax haxne,
    directAggregation_of_ne_nil lay hayne,
    directAggregation_of_ne_nil laz hazne,
    directAggregation_of_ne_nil lgx hgxne,
    directAggregation_of_ne_nil lgy hgyne,
    directAggregation_of_ne_nil lgz hgzne,
    directAggregation_of_ne_nil lroll hrne,
    directAggregation_of_ne_nil lpitch hpne⟩
  simp [tryBlock, tryBody, getCol, hs, hax, hay, haz, hgx, hgy, hgz, hr, hp,
    ilocLast, hd]

/-- Witness for C5 on the fixed three-row dataset. -/
theorem reported_stats_are_direct_aggregates_witness :
    (∃ d, tryBlock (some sampleTable) =
      ([Line.dataLoaded sampleTable.len, Line.duration d,
        Line.sampleRate sampleTable.len d,
        statLine "AccelX" [0, 0, 0], statLine "AccelY" [0, 0, 0],
        statLine "AccelZ" [1, 1, 1], statLine "GyroX" [0, 0, 0],
        statLine "GyroY" [0, 0, 0], statLine "GyroZ" [0, 0, 0],
        statLine "Roll" [0, 0, 0], statLine "Pitch" [0, 0, 0],
        Line.plotSaved], none)) ∧
    DirectAggregation (colMin [0, 0, 0]) (colMax [0, 0, 0]) (colMean [0, 0, 0]) [0, 0, 0] ∧
    DirectAggregation (colMin [0, 0, 0]) (colMax [0, 0, 0]) (colMean [0, 0, 0]) [0, 0, 0] ∧
    DirectAggregation (colMin [1, 1, 1]) (colMax [1, 1, 1]) (colMean [1, 1, 1]) [1, 1, 1] ∧
    DirectAggregation (colMin [0, 0, 0]) (colMax [0, 0, 0]) (colMean [0, 0, 0]) [0, 0, 0] ∧
    DirectAggregation (colMin [0, 0, 0]) (colMax [0, 0, 0]) (colMean [0, 0, 0]) [0, 0, 0] ∧
    DirectAggregation (colMin [0, 0, 0]) (colMax [0, 0, 0]) (colMean [0, 0, 0]) [0, 0, 0] ∧
    DirectAggregation (colMin [0, 0, 0]) (colMax [0, 0, 0]) (colMean [0, 0, 0]) [0, 0, 0] ∧
    DirectAggregation (colMin [0, 0, 0]) (colMax [0, 0, 0]) (colMean [0, 0, 0]) [0, 0, 0] :=
  reported_stats_are_direct_aggregates sampleTable
    [0, 1, 2] [0, 0, 0] [0, 0, 0] [1, 1, 1] [0, 0, 0] [0, 0, 0] [0, 0, 0]
    [0, 0, 0] [0, 0, 0]
    rfl (by decide) rfl (by decide) rfl (by decide) rfl (by decide)
    rfl (by decide) rfl (by decide) rfl (by decide) rfl (by decide)
    rfl (by decide)

/-- C3 counterexample: on the dataset with consecutive Sample = [0,1,2]
(n = 3 rows), the sample-rate print divides len(data) = 3 by
time.iloc[-1] = 0.2 and so reports 15 Hz, not the fixed 10 Hz the claim
states. -/
theorem reported_rate_not_ten_hz :
    reportedRateOperands sampleTable = some (3, 1 / 5) ∧
    (3 : ℚ) / (1 / 5) = 15 ∧ (15 : ℚ) ≠ 10 := by
  refine ⟨?_, by norm_num⟩
  simp [reportedRateOperands, tryBlock, tryBody, getCol, Table.col?,
    sampleTable, ilocLast, timeSeries, statLine]
  norm_num

/-- C3 amended: for a well-formed dataset with consecutive sample indices
Sample = [0, ..., n-1] and n ≥ 2, the reporter divides len(data) = n by
time.iloc[-1] = (n-1) * 0.1, so the printed sample rate is
10 * n / (n - 1) Hz; this is never exactly the nominal 10 Hz (it only
approaches it as n grows). -/
theorem reported_rate_formula (t : Table) (n : ℕ)
    (lax lay laz lgx lgy lgz lroll lpitch : List ℚ)
    (hn : 2 ≤ n) (hlen : t.len = n)
    (hs : t.col? "Sample" = some ((List.range n).map (fun k => (k : ℚ))))
    (hax : t.col? "AccelX" = some lax) (hay : t.col? "AccelY" = some lay)
    (haz : t.col? "AccelZ" = some laz) (hgx : t.col? "GyroX" = some lgx)
    (hgy : t.col? "GyroY" = some lgy) (hgz : t.col? "GyroZ" = some lgz)
    (hr : t.col? "Roll" = some lroll) (hp : t.col? "Pitch" = some lpitch) :
    reportedRateOperands t = some (n, ((n : ℚ) - 1) * (1 / 10)) ∧
    (n : ℚ) / (((n : ℚ) - 1) * (1 / 10)) = 10 * n / ((n : ℚ) - 1) ∧
    10 * (n : ℚ) / ((n : ℚ) - 1) ≠ 10 := by
  obtain ⟨m, rfl⟩ : ∃ m, n = m + 1 := ⟨n - 1, by omega⟩
  have hm : 1 ≤ m := by omega
  have hmq : (0 : ℚ) < (m : ℚ) := by exact_mod_cast hm
  have hcast : ((m : ℚ) + 1) - 1 = (m : ℚ) := by ring
  have hlast : (timeSeries ((List.range (m + 1)).map (fun k => (k : ℚ)))).getLast? =
      some ((m : ℚ) * (1 / 10)) := by
    simp [timeSeries, List.range_succ]
  refine ⟨?_, ?_, ?_⟩
  · simp only [reportedRateOperands, tryBlock, tryBody, getCol, hs, hax, hay,
      haz, hgx, hgy, hgz, hr, hp, ilocLast, hlast, hlen]
    simp [statLine]
  · have h10 : ((m : ℚ) + 1) - 1 = (m : ℚ) := hcast
    push_cast
    rw [h10]
    field_simp
    ring
  · push_cast
    rw [hcast]
    intro hcontra
    rw [div_eq_iff (ne_of_gt hmq)] at hcontra
    have : (10 : ℚ) = 0 := by linarith
    norm_num at this

/-- Witness for the amended C3 on the fixed three-row dataset (n = 3):
the reported rate is 10 * 3 / 2 = 15 Hz. -/
theorem reported_rate_formula_witness :
    reportedRateOperands sampleTable = some (3, ((3 : ℚ) - 1) * (1 / 10)) ∧
    (3 : ℚ) / (((3 : ℚ) - 1) * (1 / 10)) = 10 * 3 / ((3 : ℚ) - 1) ∧
    10 * (3 : ℚ) / ((3 : ℚ) - 1) ≠ 10 :=
  reported_rate_formula sampleTable 3 [0, 0, 0] [0, 0, 0] [1, 1, 1]
    [0, 0, 0] [0, 0, 0] [0, 0, 0] [0, 0, 0] [0, 0, 0]
    (by norm_num) rfl rfl rfl rfl rfl rfl rfl rfl rfl rfl

end PlotaDados
